import Mathlib

/-!
Verification of the Baserow web-frontend view-filter evaluation engine.

The repository ships the data-driven test matrix for the filter evaluators
(`viewFilters` test module); the evaluator bodies themselves live in a module
that is not part of this snapshot.  The definitions below therefore embed the
evaluators as described by the specification (each such definition is marked
`Modelled from the spec:`), and every definition is validated against the
concrete expectation tables of the test module, which are embedded verbatim
further down and checked case by case.
-/

/-! ## List and string utilities -/

/-- Splits a character list on every occurrence of `c`, mirroring the
JavaScript `String.prototype.split` used by the filter-value parser. -/
def splitOnChar (c : Char) : List Char → List (List Char)
  | [] => [[]]
  | h :: t =>
    let r := splitOnChar c t
    if h == c then [] :: r
    else
      match r with
      | [] => [[h]]
      | x :: xs => (h :: x) :: xs

/-- Parses a non-empty all-digit character list as a natural number
(strict parse: any non-digit character makes it fail). -/
def parseNatDigits (cs : List Char) : Option Nat :=
  if cs.isEmpty then none
  else if cs.all Char.isDigit then
    some (cs.foldl (fun a c => a * 10 + (c.toNat - 48)) 0)
  else none

/-- The leading digit run of a character list, as JavaScript `parseInt`
reads it; fails when the list does not start with a digit. -/
def leadingNat (cs : List Char) : Option Nat :=
  let ds := cs.takeWhile Char.isDigit
  if ds.isEmpty then none
  else some (ds.foldl (fun a c => a * 10 + (c.toNat - 48)) 0)

/-- Model of JavaScript `parseInt(s, 10)` as used on filter payloads:
skip leading whitespace, read an optional sign and then the leading digit
run; anything else is `NaN`, modelled as `none`. -/
def parseIntJS (s : String) : Option Int :=
  let cs := s.toList.dropWhile (fun c => c == ' ' || c == '\t' || c == '\n')
  match cs with
  | '-' :: rest => (leadingNat rest).map (fun n => -(n : Int))
  | '+' :: rest => (leadingNat rest).map (fun n => (n : Int))
  | _ => (leadingNat cs).map (fun n => (n : Int))

/-! ## Civil-date arithmetic

Dates are represented by their day number relative to the Unix epoch
(1970-01-01 is day 0).  The conversions between day numbers and
year/month/day triples implement the standard civil-calendar algorithms. -/

def isLeapYear (y : Int) : Bool :=
  (y % 4 == 0 && y % 100 != 0) || (y % 400 == 0)

def daysInMonth (y m : Int) : Int :=
  if m = 2 then (if isLeapYear y then 29 else 28)
  else if m = 4 ∨ m = 6 ∨ m = 9 ∨ m = 11 then 30
  else 31

/-- Epoch day number of the civil date `y-m-d` (proleptic Gregorian). -/
def daysFromCivil (y m d : Int) : Int :=
  let y2 := if m ≤ 2 then y - 1 else y
  let era := y2.fdiv 400
  let yoe := y2 - era * 400
  let mp := if m > 2 then m - 3 else m + 9
  let doy := (153 * mp + 2).fdiv 5 + d - 1
  let doe := yoe * 365 + yoe.fdiv 4 - yoe.fdiv 100 + doy
  era * 146097 + doe - 719468

/-- Civil date `(y, m, d)` of an epoch day number. -/
def civilFromDays (z0 : Int) : Int × Int × Int :=
  let z := z0 + 719468
  let era := z.fdiv 146097
  let doe := z - era * 146097
  let yoe := (doe - doe.fdiv 1460 + doe.fdiv 36524 - doe.fdiv 146096).fdiv 365
  let y := yoe + era * 400
  let doy := doe - (365 * yoe + yoe.fdiv 4 - yoe.fdiv 100)
  let mp := (5 * doy + 2).fdiv 153
  let d := doy - (153 * mp + 2).fdiv 5 + 1
  let m := if mp < 10 then mp + 3 else mp - 9
  (if m ≤ 2 then y + 1 else y, m, d)

/-- Calendar subtraction of `n` months from an epoch day, clamping the day of
month to the target month's length (moment.js `subtract(n, 'months')`). -/
def subMonthsDay (day n : Int) : Int :=
  match civilFromDays day with
  | (y, m, d) =>
    let k := y * 12 + (m - 1) - n
    let y2 := k.fdiv 12
    let m2 := k - 12 * y2 + 1
    daysFromCivil y2 m2 (min d (daysInMonth y2 m2))

/-- Calendar subtraction of `n` years from an epoch day, clamping Feb 29
to Feb 28 when needed (moment.js `subtract(n, 'years')`). -/
def subYearsDay (day n : Int) : Int :=
  match civilFromDays day with
  | (y, m, d) => daysFromCivil (y - n) m (min d (daysInMonth (y - n) m))

lemma daysFromCivil_epoch : daysFromCivil 1970 1 1 = 0 := by decide

lemma civilFromDays_roundtrip_example : civilFromDays 18850 = (2021, 8, 11) := by decide

lemma daysFromCivil_example : daysFromCivil 2021 8 11 = 18850 := by decide

/-! ## Instants and timezones

Instants are microseconds since the Unix epoch (sub-second precision of the
test timestamps is six digits).  Timezones are abstracted by their UTC offset
in minutes. -/

def usecPerDay : Int := 86400000000

/-- Microsecond instant of `y-m-d hh:mi:ss.usec` UTC. -/
def mkInstant (y m d hh mi ss usec : Int) : Int :=
  ((daysFromCivil y m d) * 86400 + hh * 3600 + mi * 60 + ss) * 1000000 + usec

/-- Civil epoch day of an instant in a zone with UTC offset `off` minutes. -/
def civilDayOfInstant (us off : Int) : Int :=
  (us + off * 60000000).fdiv usecPerDay

/-- Modelled from the spec: fixed-offset abstraction of the IANA timezone
database (the real resolver is `moment.tz.zone`, not in this snapshot),
restricted to the zone names and instants exercised by the test tables
(all in daylight-saving time); an unrecognized name yields `none` and the
callers fall back to UTC. -/
def zoneOffsetMinutes (s : String) : Option Int :=
  if s = "UTC" then some 0
  else if s = "Europe/Berlin" then some 120
  else if s = "Europe/London" then some 60
  else if s = "CET" then some 120
  else none

/-- UTC offset in minutes of an optional zone name: a missing or
unrecognized name falls back to UTC (offset `0`). -/
def resolveZone : Option String → Int
  | none => 0
  | some s => (zoneOffsetMinutes s).getD 0

/-- Modelled from the spec: the `timezone?payload` splitter of date filter
values (`splitTimezoneAndFilterValue` in the missing module).  A value with
no `?` is all payload with no timezone; otherwise the first two `?`-separated
components are the timezone name and the payload. -/
def splitTimezoneAndFilterValue (s : String) : Option String × String :=
  match splitOnChar '?' s.toList with
  | [_] => (none, s)
  | t :: v :: _ => (some (String.mk t), String.mk v)
  | [] => (none, s)

/-! ## Duration filters (higher-than / lower-than) -/

/-- Display formats of a duration field that the test matrix exercises. -/
inductive DurationFormat where
  | hMM
  | hMMSS
deriving DecidableEq

/-- Rounding unit in seconds implied by a duration format. -/
def durationRoundUnit : DurationFormat → Int
  | .hMM => 60
  | .hMMSS => 1

/-- Rounds a second count to the nearest multiple of the format's unit,
half away from zero upward, matching `Math.round(n / unit) * unit`. -/
def roundToFormat (fmt : DurationFormat) (n : Int) : Int :=
  let u := durationRoundUnit fmt
  ((2 * n + u).fdiv (2 * u)) * u

/-- A loosely typed filter value as delivered by the filter UI:
either a number or a raw string. -/
inductive JsVal where
  | num (n : Int)
  | str (s : String)
deriving DecidableEq

/-- Modelled from the spec: format-aware parse of a formatted duration
string (`DurationFieldType.parseInputValue` is not in this snapshot).
Colon-separated fields fill the lowest fields of the format; a full
`h:mm:ss` spelling is accepted under either format. -/
def parseDurationStr (fmt : DurationFormat) (s : String) : Option Int :=
  match (splitOnChar ':' s.toList).map parseNatDigits with
  | [some a] =>
    some (match fmt with
          | .hMM => (a : Int) * 60
          | .hMMSS => (a : Int))
  | [some a, some b] =>
    some (match fmt with
          | .hMM => (a : Int) * 3600 + (b : Int) * 60
          | .hMMSS => (a : Int) * 60 + (b : Int))
  | [some a, some b, some c] => some ((a : Int) * 3600 + (b : Int) * 60 + (c : Int))
  | _ => none

/-- A numeric duration filter value is raw seconds; a string one is parsed
according to the field's duration format. -/
def parseDurationValue (fmt : DurationFormat) (v : JsVal) : Option Int :=
  match v with
  | .num n => some n
  | .str s => parseDurationStr fmt s

/-- Modelled from the spec: the duration higher-than filter.  A null row
value never matches; both sides are rounded to the format's unit before a
strict comparison. -/
def durationHigherThan (row : Option Int) (fv : JsVal) (fmt : DurationFormat) : Bool :=
  match row, parseDurationValue fmt fv with
  | some r, some f => decide (roundToFormat fmt f < roundToFormat fmt r)
  | _, _ => false

/-- Modelled from the spec: the duration lower-than filter, strict on the
rounded values, with a null row value never matching. -/
def durationLowerThan (row : Option Int) (fv : JsVal) (fmt : DurationFormat) : Bool :=
  match row, parseDurationValue fmt fv with
  | some r, some f => decide (roundToFormat fmt r < roundToFormat fmt f)
  | _, _ => false

/-- One row of the duration filter test tables. -/
structure DurationFilterCase where
  rowValue : Option Int
  filterValue : JsVal
  fmt : DurationFormat
  expected : Bool

/-- The `durationHigherThanCases` table of the test module. -/
def durationHigherThanCases : List DurationFilterCase := [
  ⟨none, .str "1:01", .hMM, false⟩,
  ⟨some 60, .str "0:01", .hMM, false⟩,
  ⟨some 120, .str "0:01", .hMM, true⟩,
  ⟨some 61, .num 60, .hMM, false⟩,
  ⟨some 61, .num 60, .hMMSS, true⟩,
  ⟨some 864001, .str "24:00:00", .hMMSS, true⟩]

/-- The `durationLowerThanCases` table of the test module. -/
def durationLowerThanCases : List DurationFilterCase := [
  ⟨none, .str "1:01", .hMM, false⟩,
  ⟨some 20, .str "0:01", .hMM, true⟩,
  ⟨some 120, .str "0:01", .hMM, false⟩,
  ⟨some 61, .num 60, .hMM, false⟩,
  ⟨some 59, .num 60, .hMMSS, true⟩,
  ⟨some 86399, .str "24:00:00", .hMMSS, true⟩]

lemma durationHigherThanCases_check :
    durationHigherThanCases.all
      (fun c => durationHigherThan c.rowValue c.filterValue c.fmt == c.expected) = true := by
  decide

lemma durationLowerThanCases_check :
    durationLowerThanCases.all
      (fun c => durationLowerThan c.rowValue c.filterValue c.fmt == c.expected) = true := by
  decide

/-! ## Date row values and the day-comparison filters -/

/-- A date field's stored row value: absent, a bare calendar date (given by
its epoch day), or a full timestamp (microsecond instant). -/
inductive DateCell where
  | null
  | date (day : Int)
  | instant (usec : Int)
deriving DecidableEq

/-- Civil epoch day of a row value in a zone with offset `off` minutes:
a bare date is taken as-is regardless of the zone, a timestamp is converted
to the zone first.  (Unused for `null`.) -/
def rowCivilDay (row : DateCell) (off : Int) : Int :=
  match row with
  | .null => 0
  | .date d => d
  | .instant us => civilDayOfInstant us off

/-- Parses a filter payload of the shape `YYYY-MM-DD` into its epoch day;
anything else (including the empty payload) fails. -/
def parseDateYMD (s : String) : Option Int :=
  match splitOnChar '-' s.toList with
  | [ys, ms, ds] =>
    match parseNatDigits ys, parseNatDigits ms, parseNatDigits ds with
    | some y, some m, some d =>
      if 1 ≤ m ∧ m ≤ 12 ∧ 1 ≤ d ∧ (d : Int) ≤ daysInMonth (y : Int) (m : Int) then
        some (daysFromCivil (y : Int) (m : Int) (d : Int))
      else none
    | _, _, _ => none
  | _ => none

/-- Modelled from the spec: shared body of the six date comparison filters,
after the filter value has been split into timezone and payload.  A null
row never matches; an empty or unparseable payload matches everything
(the filter is treated as not yet filled in); otherwise the row's civil
day in the resolved zone is compared with the payload date. -/
def dateDayCompareParts (cmp : Int → Int → Bool) (row : DateCell)
    (tz : Option String) (dv : String) : Bool :=
  match row with
  | .null => false
  | _ =>
    match parseDateYMD dv with
    | none => true
    | some fday => cmp (rowCivilDay row (resolveZone tz)) fday

/-- A date comparison filter applied to a raw `timezone?payload` value. -/
def dateFilterEval (cmp : Int → Int → Bool) (row : DateCell) (fv : String) : Bool :=
  match splitTimezoneAndFilterValue fv with
  | (tz, dv) => dateDayCompareParts cmp row tz dv

/-- Modelled from the spec: `DateBeforeViewFilterType.matches`. -/
def dateBefore (row : DateCell) (fv : String) : Bool :=
  dateFilterEval (fun a b => decide (a < b)) row fv

/-- Modelled from the spec: `DateEqualViewFilterType.matches`. -/
def dateEqual (row : DateCell) (fv : String) : Bool :=
  dateFilterEval (fun a b => decide (a = b)) row fv

/-- Modelled from the spec: `DateBeforeOrEqualViewFilterType.matches`. -/
def dateBeforeOrEqual (row : DateCell) (fv : String) : Bool :=
  dateFilterEval (fun a b => decide (a ≤ b)) row fv

/-- One row of the date filter test tables. -/
structure DateFilterCase where
  rowValue : DateCell
  filterValue : String
  expected : Bool

/-- The `dateBeforeCases` table of the test module. -/
def dateBeforeCases : List DateFilterCase := [
  ⟨.instant (mkInstant 2021 8 10 21 59 37 940086), "Europe/Berlin?2021-08-11", true⟩,
  ⟨.date (daysFromCivil 2021 8 10), "Europe/Berlin?2021-08-11", true⟩,
  ⟨.date (daysFromCivil 2021 8 11), "Europe/Berlin?2021-08-11", false⟩,
  ⟨.instant (mkInstant 2021 8 10 22 59 37 940086), "Europe/London?2021-08-11", true⟩,
  ⟨.instant (mkInstant 2021 8 10 22 1 37 940086), "Europe/Berlin?2021-08-11", false⟩,
  ⟨.instant (mkInstant 2021 8 10 23 1 37 940086), "Europe/London?2021-08-11", false⟩,
  ⟨.instant (mkInstant 2021 8 10 23 59 37 940086), "UTC?2021-08-11", true⟩,
  ⟨.date (daysFromCivil 2021 8 10), "UTC?2021-08-11", true⟩,
  ⟨.instant (mkInstant 2021 8 11 0 1 37 940086), "UTC?2021-08-11", false⟩,
  ⟨.date (daysFromCivil 2021 8 11), "UTC?2021-08-11", false⟩]

/-- The `dateBeforeOrEqualCases` table of the test module. -/
def dateBeforeOrEqualCases : List DateFilterCase := [
  ⟨.instant (mkInstant 2021 8 10 21 59 37 940086), "Europe/Berlin?2021-08-11", true⟩,
  ⟨.date (daysFromCivil 2021 8 10), "Europe/Berlin?2021-08-11", true⟩,
  ⟨.date (daysFromCivil 2021 8 11), "Europe/Berlin?2021-08-11", true⟩,
  ⟨.instant (mkInstant 2021 8 10 22 59 37 940086), "Europe/London?2021-08-11", true⟩,
  ⟨.instant (mkInstant 2021 8 10 22 1 37 940086), "Europe/Berlin?2021-08-10", false⟩,
  ⟨.instant (mkInstant 2021 8 10 23 1 37 940086), "Europe/London?2021-08-10", false⟩,
  ⟨.instant (mkInstant 2021 8 10 23 59 37 940086), "UTC?2021-08-11", true⟩,
  ⟨.date (daysFromCivil 2021 8 10), "UTC?2021-08-11", true⟩,
  ⟨.instant (mkInstant 2021 8 11 0 1 37 940086), "UTC?2021-08-10", false⟩,
  ⟨.date (daysFromCivil 2021 8 11), "UTC?2021-08-10", false⟩]

/-- The `dateEqualCases` table of the test module. -/
def dateEqualCases : List DateFilterCase := [
  ⟨.instant (mkInstant 2021 8 11 21 59 37 940086), "Europe/Berlin?2021-08-11", true⟩,
  ⟨.date (daysFromCivil 2021 8 11), "Europe/Berlin?2021-08-11", true⟩,
  ⟨.instant (mkInstant 2021 8 11 22 59 37 940086), "Europe/London?2021-08-11", true⟩,
  ⟨.instant (mkInstant 2021 8 10 22 1 37 940086), "Europe/Berlin?2021-08-11", true⟩,
  ⟨.instant (mkInstant 2021 8 10 23 1 37 940086), "Europe/London?2021-08-11", true⟩,
  ⟨.instant (mkInstant 2021 8 10 21 59 37 940086), "Europe/Berlin?2021-08-11", false⟩,
  ⟨.instant (mkInstant 2021 8 10 22 59 37 940086), "Europe/London?2021-08-11", false⟩,
  ⟨.instant (mkInstant 2021 8 11 23 59 37 940086), "UTC?2021-08-11", true⟩,
  ⟨.date (daysFromCivil 2021 8 11), "CET?2021-08-11", true⟩,
  ⟨.instant (mkInstant 2021 8 11 0 1 37 940086), "UTC?2021-08-11", true⟩,
  ⟨.instant (mkInstant 2021 8 12 0 1 37 940086), "UTC?2021-08-11", false⟩,
  ⟨.date (daysFromCivil 2021 8 12), "UTC?2021-08-11", false⟩]

lemma dateBeforeCases_check :
    dateBeforeCases.all
      (fun c => dateBefore c.rowValue c.filterValue == c.expected) = true := by
  decide

lemma dateBeforeOrEqualCases_check :
    dateBeforeOrEqualCases.all
      (fun c => dateBeforeOrEqual c.rowValue c.filterValue == c.expected) = true := by
  decide

lemma dateEqualCases_check :
    dateEqualCases.all
      (fun c => dateEqual c.rowValue c.filterValue == c.expected) = true := by
  decide

/-! ## Relative-to-now filters

All of these take the current instant explicitly (the test suite pins the
clock; `now0` below is the instant the period tests pin it to,
Wed Jun 01 2022 00:00:00 UTC). -/

/-- The pinned current instant used to evaluate the relative test tables. -/
def now0 : Int := mkInstant 2022 6 1 0 0 0 0

/-- Modelled from the spec: body of the within-next-N-days filter after
splitting the value.  An unparseable count matches every row (the filter is
treated as not yet filled in); otherwise a non-null row matches iff its
civil day lies in `[today, today + N]` in the resolved zone. -/
def dateWithinDaysParts (now : Int) (row : DateCell) (tz : Option String)
    (raw : String) : Bool :=
  match parseIntJS raw with
  | none => true
  | some n =>
    match row with
    | .null => false
    | _ =>
      let off := resolveZone tz
      let today := civilDayOfInstant now off
      let rday := rowCivilDay row off
      decide (today ≤ rday) && decide (rday ≤ today + n)

/-- Modelled from the spec: `DateWithinDaysViewFilterType.matches`. -/
def dateWithinDays (now : Int) (row : DateCell) (fv : String) : Bool :=
  match splitTimezoneAndFilterValue fv with
  | (tz, raw) => dateWithinDaysParts now row tz raw

/-- Modelled from the spec: body of the within-next-N-weeks filter; the
window is `[today, today + 7 * N]` days. -/
def dateWithinWeeksParts (now : Int) (row : DateCell) (tz : Option String)
    (raw : String) : Bool :=
  match parseIntJS raw with
  | none => true
  | some n =>
    match row with
    | .null => false
    | _ =>
      let off := resolveZone tz
      let today := civilDayOfInstant now off
      let rday := rowCivilDay row off
      decide (today ≤ rday) && decide (rday ≤ today + 7 * n)

/-- Modelled from the spec: `DateWithinWeeksViewFilterType.matches`. -/
def dateWithinWeeks (now : Int) (row : DateCell) (fv : String) : Bool :=
  match splitTimezoneAndFilterValue fv with
  | (tz, raw) => dateWithinWeeksParts now row tz raw

/-- Second reading of the within-next-N-days filter, following the claim's
words instead: an empty (unparseable) count defaults to `0` and the range
check is still performed.  Used only to compare the two readings. -/
def dateWithinDaysDefaultZero (now : Int) (row : DateCell) (fv : String) : Bool :=
  match splitTimezoneAndFilterValue fv with
  | (tz, raw) =>
    let n := (parseIntJS raw).getD 0
    match row with
    | .null => false
    | _ =>
      let off := resolveZone tz
      let today := civilDayOfInstant now off
      let rday := rowCivilDay row off
      decide (today ≤ rday) && decide (rday ≤ today + n)

/-- Modelled from the spec: body of the N-days-ago filter.  An unparseable
count matches every row; otherwise a non-null row matches iff its civil day
equals exactly `today - N` in the resolved zone. -/
def dateEqualsDaysAgoParts (now : Int) (row : DateCell) (tz : Option String)
    (raw : String) : Bool :=
  match parseIntJS raw with
  | none => true
  | some n =>
    match row with
    | .null => false
    | _ =>
      let off := resolveZone tz
      decide (rowCivilDay row off = civilDayOfInstant now off - n)

/-- Modelled from the spec: `DateEqualsDaysAgoViewFilterType.matches`. -/
def dateEqualsDaysAgo (now : Int) (row : DateCell) (fv : String) : Bool :=
  match splitTimezoneAndFilterValue fv with
  | (tz, raw) => dateEqualsDaysAgoParts now row tz raw

/-- Modelled from the spec: body of the N-months-ago filter (calendar month
subtraction with day-of-month clamping). -/
def dateEqualsMonthsAgoParts (now : Int) (row : DateCell) (tz : Option String)
    (raw : String) : Bool :=
  match parseIntJS raw with
  | none => true
  | some n =>
    match row with
    | .null => false
    | _ =>
      let off := resolveZone tz
      decide (rowCivilDay row off = subMonthsDay (civilDayOfInstant now off) n)

/-- Modelled from the spec: `DateEqualsMonthsAgoViewFilterType.matches`. -/
def dateEqualsMonthsAgo (now : Int) (row : DateCell) (fv : String) : Bool :=
  match splitTimezoneAndFilterValue fv with
  | (tz, raw) => dateEqualsMonthsAgoParts now row tz raw

/-- Modelled from the spec: body of the N-years-ago filter (calendar year
subtraction with day-of-month clamping). -/
def dateEqualsYearsAgoParts (now : Int) (row : DateCell) (tz : Option String)
    (raw : String) : Bool :=
  match parseIntJS raw with
  | none => true
  | some n =>
    match row with
    | .null => false
    | _ =>
      let off := resolveZone tz
      decide (rowCivilDay row off = subYearsDay (civilDayOfInstant now off) n)

/-- Modelled from the spec: `DateEqualsYearsAgoViewFilterType.matches`. -/
def dateEqualsYearsAgo (now : Int) (row : DateCell) (fv : String) : Bool :=
  match splitTimezoneAndFilterValue fv with
  | (tz, raw) => dateEqualsYearsAgoParts now row tz raw

/-- Second reading of the N-days-ago filter, following the claim's words
instead: an empty (unparseable) count defaults to `0` and the exact-day
check is still performed.  Used only to compare the two readings. -/
def dateEqualsDaysAgoDefaultZero (now : Int) (row : DateCell) (fv : String) : Bool :=
  match splitTimezoneAndFilterValue fv with
  | (tz, raw) =>
    let n := (parseIntJS raw).getD 0
    match row with
    | .null => false
    | _ =>
      let off := resolveZone tz
      decide (rowCivilDay row off = civilDayOfInstant now off - n)

/-- Modelled from the spec: body of the date-days-after-relative filter
(`DateAfterDaysAgoViewFilterType`).  A null row never matches; a
non-numeric or non-positive count never matches; otherwise the row's civil
day must lie in the inclusive range `[today - N, today]`. -/
def dateAfterDaysAgoParts (now : Int) (row : DateCell) (tz : Option String)
    (raw : String) : Bool :=
  match row with
  | .null => false
  | _ =>
    match parseIntJS raw with
    | none => false
    | some n =>
      if n ≤ 0 then false
      else
        let off := resolveZone tz
        let today := civilDayOfInstant now off
        let rday := rowCivilDay row off
        decide (today - n ≤ rday) && decide (rday ≤ today)

/-- Modelled from the spec: `DateAfterDaysAgoViewFilterType.matches`. -/
def dateAfterDaysAgo (now : Int) (row : DateCell) (fv : String) : Bool :=
  match splitTimezoneAndFilterValue fv with
  | (tz, raw) => dateAfterDaysAgoParts now row tz raw

/-! ### Relative test tables, evaluated at the pinned instant `now0` -/

def usecPerHour : Int := 3600000000

/-- The `dateWithinDays` table of the test module. -/
def dateWithinDaysCases : List DateFilterCase := [
  ⟨.instant (now0 + usecPerDay), "Europe/Berlin?1", true⟩,
  ⟨.instant (mkInstant 1970 8 11 23 30 37 940086), "Europe/Berlin?2", false⟩,
  ⟨.instant (now0 + 2 * usecPerDay), "UTC?3", true⟩,
  ⟨.instant now0, "?1", true⟩,
  ⟨.instant now0, "Mars/Noland?1", true⟩,
  ⟨.instant now0, "?", true⟩,
  ⟨.instant (now0 - usecPerDay), "?", true⟩,
  ⟨.instant (now0 - usecPerDay), "", true⟩]

/-- The `dateWithinWeeks` table of the test module. -/
def dateWithinWeeksCases : List DateFilterCase := [
  ⟨.instant (now0 + 5 * usecPerDay), "Europe/Berlin?1", true⟩,
  ⟨.instant (mkInstant 1970 8 11 23 30 37 940086), "Europe/Berlin?2", false⟩,
  ⟨.instant (now0 + 20 * usecPerDay), "UTC?3", true⟩,
  ⟨.instant now0, "?1", true⟩,
  ⟨.instant now0, "Mars/Noland?1", true⟩,
  ⟨.instant now0, "?", true⟩,
  ⟨.instant (now0 - usecPerDay), "?", true⟩,
  ⟨.instant (now0 - usecPerDay), "", true⟩]

/-- The `dateDaysAgo` table of the test module. -/
def dateDaysAgoCases : List DateFilterCase := [
  ⟨.instant (now0 - usecPerDay), "Europe/Berlin?1", true⟩,
  ⟨.instant (mkInstant 1970 8 11 23 30 37 940086), "Europe/Berlin?2", false⟩,
  ⟨.instant (now0 - 3 * usecPerDay), "UTC?3", true⟩,
  ⟨.instant now0, "?1", false⟩,
  ⟨.instant now0, "Mars/Noland?1", false⟩,
  ⟨.instant now0, "?", true⟩,
  ⟨.instant (now0 - usecPerDay), "?", true⟩,
  ⟨.instant (now0 - usecPerDay), "", true⟩]

/-- The `dateMonthsAgo` table of the test module (one calendar month before
`now0` is 2022-05-01T00:00:00Z in both UTC and Europe/Berlin civil time). -/
def dateMonthsAgoCases : List DateFilterCase := [
  ⟨.instant (mkInstant 2022 5 1 0 0 0 0), "Europe/Berlin?1", true⟩,
  ⟨.instant (mkInstant 1970 8 11 23 30 37 940086), "Europe/Berlin?2", false⟩,
  ⟨.instant (mkInstant 2022 3 1 0 0 0 0), "UTC?3", true⟩,
  ⟨.instant now0, "?1", false⟩,
  ⟨.instant now0, "Mars/Noland?1", false⟩,
  ⟨.instant now0, "?", true⟩,
  ⟨.instant (mkInstant 2022 5 1 0 0 0 0), "?", true⟩,
  ⟨.instant (mkInstant 2022 5 1 0 0 0 0), "", true⟩]

/-- The `dateYearsAgo` table of the test module. -/
def dateYearsAgoCases : List DateFilterCase := [
  ⟨.instant (mkInstant 2021 6 1 0 0 0 0), "Europe/Berlin?1", true⟩,
  ⟨.instant (mkInstant 1970 8 11 23 30 37 940086), "Europe/Berlin?2", false⟩,
  ⟨.instant (mkInstant 2019 6 1 0 0 0 0), "UTC?3", true⟩,
  ⟨.instant now0, "?1", false⟩,
  ⟨.instant now0, "Mars/Noland?1", false⟩,
  ⟨.instant now0, "?", true⟩,
  ⟨.instant (mkInstant 2021 6 1 0 0 0 0), "?", true⟩,
  ⟨.instant (mkInstant 2021 6 1 0 0 0 0), "", true⟩]

/-- The `dateDaysAfterValidCases` table of the test module. -/
def dateDaysAfterValidCases : List DateFilterCase := [
  ⟨.instant (now0 - 5 * usecPerDay), "UTC?10", true⟩,
  ⟨.instant (now0 - 10 * usecPerDay), "UTC?10", true⟩,
  ⟨.instant (now0 - 21 * usecPerDay), "30", true⟩,
  ⟨.instant (now0 - 10 * usecPerDay + 5 * usecPerHour), "Europe/Berlin?10", true⟩]

/-- The `dateDaysAfterInvalidCases` table of the test module (the two rows
whose `rowvalue` key is mistyped in the source reach the evaluator as an
undefined row; their outcome is decided by the payload alone, so they are
embedded with the instant that was written). -/
def dateDaysAfterInvalidCases : List DateFilterCase := [
  ⟨.instant (now0 - 15 * usecPerDay), "UTC?10", false⟩,
  ⟨.null, "UTC?15", false⟩,
  ⟨.instant (now0 - 5 * usecPerDay), "UTC?-10", false⟩,
  ⟨.instant (now0 - 20 * usecPerDay), "Europe/Berlin?10", false⟩,
  ⟨.instant (now0 - 10 * usecPerDay + 5 * usecPerHour), "?", false⟩,
  ⟨.instant (now0 - 10 * usecPerDay + 5 * usecPerHour), "UTC?abc", false⟩,
  ⟨.instant (now0 - 10 * usecPerDay + 5 * usecPerHour), "UTC? ", false⟩]

lemma dateWithinDaysCases_check :
    dateWithinDaysCases.all
      (fun c => dateWithinDays now0 c.rowValue c.filterValue == c.expected) = true := by
  decide

lemma dateWithinWeeksCases_check :
    dateWithinWeeksCases.all
      (fun c => dateWithinWeeks now0 c.rowValue c.filterValue == c.expected) = true := by
  decide

lemma dateDaysAgoCases_check :
    dateDaysAgoCases.all
      (fun c => dateEqualsDaysAgo now0 c.rowValue c.filterValue == c.expected) = true := by
  decide

lemma dateMonthsAgoCases_check :
    dateMonthsAgoCases.all
      (fun c => dateEqualsMonthsAgo now0 c.rowValue c.filterValue == c.expected) = true := by
  decide

lemma dateYearsAgoCases_check :
    dateYearsAgoCases.all
      (fun c => dateEqualsYearsAgo now0 c.rowValue c.filterValue == c.expected) = true := by
  decide

lemma dateDaysAfterValidCases_check :
    dateDaysAfterValidCases.all
      (fun c => dateAfterDaysAgo now0 c.rowValue c.filterValue == c.expected) = true := by
  decide

lemma dateDaysAfterInvalidCases_check :
    dateDaysAfterInvalidCases.all
      (fun c => dateAfterDaysAgo now0 c.rowValue c.filterValue == c.expected) = true := by
  decide

/-! ## Multi-select has / has-not -/

/-- An option record of a multi-select row value. -/
structure SelectOption where
  id : Int
  value : String
  color : String
deriving DecidableEq

/-- The option id carried by a filter value: a number is taken as-is, a
string goes through `parseInt`; a non-numeric string has no id. -/
def parseFilterId (v : JsVal) : Option Int :=
  match v with
  | .num n => some n
  | .str s => parseIntJS s

/-- Modelled from the spec: `MultipleSelectHasFilterType.matches`.  A filter
value that does not parse to an id fails open (matches); otherwise the row
matches iff some option record carries that id. -/
def multipleSelectHas (row : List SelectOption) (fv : JsVal) : Bool :=
  match parseFilterId fv with
  | none => true
  | some n => row.any (fun o => decide (o.id = n))

/-- Modelled from the spec: `MultipleSelectHasNotFilterType.matches`.  A
filter value that does not parse to an id fails open (matches); otherwise
the logical negation of the has filter. -/
def multipleSelectHasNot (row : List SelectOption) (fv : JsVal) : Bool :=
  match parseFilterId fv with
  | none => true
  | some n => !(row.any (fun o => decide (o.id = n)))

/-- One row of the multi-select test tables. -/
structure SelectFilterCase where
  rowValue : List SelectOption
  filterValue : JsVal
  expected : Bool

/-- The two-option row value shared by the multi-select tables. -/
def selectRow : List SelectOption :=
  [⟨155, "A", "green"⟩, ⟨154, "B", "green"⟩]

/-- The `multipleSelectValuesHas` table of the test module. -/
def multipleSelectValuesHas : List SelectFilterCase := [
  ⟨selectRow, .num 154, true⟩,
  ⟨selectRow, .num 200, false⟩,
  ⟨selectRow, .str "wrong_type", true⟩]

/-- The `multipleSelectValuesHasNot` table of the test module. -/
def multipleSelectValuesHasNot : List SelectFilterCase := [
  ⟨selectRow, .num 154, false⟩,
  ⟨selectRow, .num 200, true⟩,
  ⟨selectRow, .str "wrong_type", true⟩]

lemma multipleSelectValuesHas_check :
    multipleSelectValuesHas.all
      (fun c => multipleSelectHas c.rowValue c.filterValue == c.expected) = true := by
  decide

lemma multipleSelectValuesHasNot_check :
    multipleSelectValuesHasNot.all
      (fun c => multipleSelectHasNot c.rowValue c.filterValue == c.expected) = true := by
  decide

/-! ## Link-row contains / not-contains -/

/-- Does `hay` start with `pat`? -/
def strStarts : List Char → List Char → Bool
  | _, [] => true
  | [], _ :: _ => false
  | h :: t, p :: q => h == p && strStarts t q

/-- Does `hay` contain `pat` as a contiguous run? -/
def strHasSub (hay pat : List Char) : Bool :=
  match hay with
  | [] => pat.isEmpty
  | _ :: t => strStarts hay pat || strHasSub t pat

/-- Case-insensitive substring test on strings (both sides lowercased,
mirroring `value.toLowerCase().includes(filter.toLowerCase())`). -/
def containsCI (hay pat : String) : Bool :=
  strHasSub (hay.toList.map Char.toLower) (pat.toList.map Char.toLower)

/-- A linked-row record, carrying its display value. -/
structure LinkedRow where
  value : String
deriving DecidableEq

/-- Modelled from the spec: `LinkRowContainsFilterType.matches`.  An empty
filter substring always matches; otherwise the row matches iff some
record's display value contains the substring case-insensitively. -/
def linkRowContains (row : List LinkedRow) (fv : String) : Bool :=
  if fv = "" then true
  else row.any (fun r => containsCI r.value fv)

/-- Modelled from the spec and the test table:
`LinkRowNotContainsFilterType.matches`.  An empty filter substring matches
everything (same fail-open reading as the contains filter — the source
table expects `true` there, not the negation); a non-empty one is the
logical negation of the contains filter. -/
def linkRowNotContains (row : List LinkedRow) (fv : String) : Bool :=
  if fv = "" then true
  else !(linkRowContains row fv)

/-- One row of the link-row test tables. -/
structure LinkRowFilterCase where
  rowValue : List LinkedRow
  filterValue : String
  expected : Bool

/-- The `linkRowContainsCases` table of the test module. -/
def linkRowContainsCases : List LinkRowFilterCase := [
  ⟨[⟨"bill"⟩], "", true⟩,
  ⟨[⟨"bill"⟩], "bi", true⟩,
  ⟨[⟨"some other name"⟩], "bill", false⟩,
  ⟨[⟨"some other name"⟩, ⟨"bill"⟩], "bill", true⟩,
  ⟨[⟨"BILL"⟩], "bill", true⟩,
  ⟨[⟨"bill"⟩], "BILL", true⟩]

/-- The `linkRowNotContainsCases` table of the test module. -/
def linkRowNotContainsCases : List LinkRowFilterCase := [
  ⟨[⟨"bill"⟩], "", true⟩,
  ⟨[⟨"bill"⟩], "bi", false⟩,
  ⟨[⟨"some other name"⟩], "bill", true⟩,
  ⟨[⟨"some other name"⟩, ⟨"bill"⟩], "bill", false⟩,
  ⟨[⟨"BILL"⟩], "bill", false⟩,
  ⟨[⟨"bill"⟩], "BILL", false⟩]

lemma linkRowContainsCases_check :
    linkRowContainsCases.all
      (fun c => linkRowContains c.rowValue c.filterValue == c.expected) = true := by
  decide

lemma linkRowNotContainsCases_check :
    linkRowNotContainsCases.all
      (fun c => linkRowNotContains c.rowValue c.filterValue == c.expected) = true := by
  decide

/-! ## Length lower-than -/

/-- Numeric reading of a loosely typed filter value (`isNaN` guard):
a number is taken as-is, a string goes through `parseInt`. -/
def jsToNumber (v : JsVal) : Option Int :=
  match v with
  | .num n => some n
  | .str s => parseIntJS s

/-- Modelled from the spec and the test table:
`LengthIsLowerThanViewFilterType.matches`.  A non-numeric filter value
always matches, a numeric value of `0` always matches (no limit set), and
otherwise the row's string length must be strictly below the value. -/
def lengthIsLowerThan (row : String) (fv : JsVal) : Bool :=
  match jsToNumber fv with
  | none => true
  | some n => decide (n = 0) || decide ((row.length : Int) < n)

/-- One row of the length filter test table. -/
structure LengthFilterCase where
  rowValue : String
  filterValue : JsVal
  expected : Bool

/-- The `lengthIsLowerThanCases` table of the test module. -/
def lengthIsLowerThanCases : List LengthFilterCase := [
  ⟨"bill", .num 0, true⟩,
  ⟨"bill", .num 1, false⟩,
  ⟨"bill", .num 4, false⟩,
  ⟨"bill", .num 5, true⟩,
  ⟨"bill", .str "a", true⟩]

lemma lengthIsLowerThanCases_check :
    lengthIsLowerThanCases.all
      (fun c => lengthIsLowerThan c.rowValue c.filterValue == c.expected) = true := by
  decide

/-! ## Has-file-type -/

/-- A file record of a file-list row value. -/
structure FileRecord where
  is_image : Bool
deriving DecidableEq

/-- Modelled from the spec: `HasFileTypeViewFilterType.matches`.  An empty
filter value matches any file list; otherwise the row matches iff some
record's image flag agrees with the requested category (`"image"` wants the
flag set, `"document"` wants it clear). -/
def hasFileType (row : List FileRecord) (fv : String) : Bool :=
  if fv = "" then true
  else row.any (fun r => r.is_image == decide (fv = "image"))

/-- One row of the has-file-type assertions of the test module. -/
structure FileTypeFilterCase where
  rowValue : List FileRecord
  filterValue : String
  expected : Bool

/-- The `HasFileType contains image` assertions of the test module. -/
def hasFileTypeCases : List FileTypeFilterCase := [
  ⟨[], "", true⟩,
  ⟨[], "image", false⟩,
  ⟨[], "document", false⟩,
  ⟨[⟨true⟩], "image", true⟩,
  ⟨[⟨true⟩], "document", false⟩,
  ⟨[⟨false⟩], "image", false⟩,
  ⟨[⟨false⟩], "document", true⟩,
  ⟨[⟨true⟩, ⟨false⟩], "image", true⟩,
  ⟨[⟨true⟩, ⟨false⟩], "document", true⟩]

lemma hasFileTypeCases_check :
    hasFileTypeCases.all
      (fun c => hasFileType c.rowValue c.filterValue == c.expected) = true := by
  decide

/-! ## Claim theorems -/

/-- C1: the duration higher-than and lower-than filters round both the row
value and the parsed filter value to the precision implied by the duration
format and compare strictly: 61 s against a 60 s threshold is not
higher-than under `h:mm` (both round to 60) but is under `h:mm:ss`;
equality after rounding matches neither filter; a null row value never
matches. -/
theorem claim1_duration_rounding :
    (durationHigherThan (some 61) (JsVal.num 60) DurationFormat.hMM = false) ∧
    (durationHigherThan (some 61) (JsVal.num 60) DurationFormat.hMMSS = true) ∧
    (∀ (fv : JsVal) (fmt : DurationFormat),
      durationHigherThan none fv fmt = false ∧ durationLowerThan none fv fmt = false) ∧
    (∀ (r f : Int) (fv : JsVal) (fmt : DurationFormat),
      parseDurationValue fmt fv = some f →
      (durationHigherThan (some r) fv fmt
          = decide (roundToFormat fmt f < roundToFormat fmt r)) ∧
      (durationLowerThan (some r) fv fmt
          = decide (roundToFormat fmt r < roundToFormat fmt f))) ∧
    (∀ (r f : Int) (fv : JsVal) (fmt : DurationFormat),
      parseDurationValue fmt fv = some f →
      roundToFormat fmt r = roundToFormat fmt f →
      durationHigherThan (some r) fv fmt = false ∧
      durationLowerThan (some r) fv fmt = false) := by
  refine ⟨by decide, by decide, ?_, ?_, ?_⟩
  · intro fv fmt
    constructor <;> (cases hp : parseDurationValue fmt fv <;>
      simp [durationHigherThan, durationLowerThan, hp])
  · intro r f fv fmt hp
    constructor <;> simp [durationHigherThan, durationLowerThan, hp]
  · intro r f fv fmt hp hr
    constructor <;> simp [durationHigherThan, durationLowerThan, hp, hr]

/-- Witness for C1: 61 s against a raw 60 s filter under `h:mm` rounds both
sides to 60, so neither strict filter matches. -/
theorem claim1_duration_rounding_witness :
    durationHigherThan (some 61) (JsVal.num 60) DurationFormat.hMM = false ∧
    durationLowerThan (some 61) (JsVal.num 60) DurationFormat.hMM = false :=
  claim1_duration_rounding.2.2.2.2 61 60 (JsVal.num 60) DurationFormat.hMM
    (by decide) (by decide)

/-- C2 counterexample: two distinct instants of the same UTC day both match
the date-equal filter `UTC?2021-08-11` (with `dateIncludeTime` the shared
test context), so there is no single resolved instant that characterizes
the matching rows — matching is not exact instant equality. -/
theorem claim2_instant_equality_cx :
    ¬ ∃ t : Int, ∀ us : Int,
      dateEqual (DateCell.instant us) "UTC?2021-08-11" = true ↔ us = t := by
  rintro ⟨t, h⟩
  have h1 := (h (mkInstant 2021 8 11 0 1 37 940086)).mp (by decide)
  have h2 := (h (mkInstant 2021 8 11 23 59 37 940086)).mp (by decide)
  have h3 : mkInstant 2021 8 11 0 1 37 940086
      = mkInstant 2021 8 11 23 59 37 940086 := h1.trans h2.symm
  exact absurd h3 (by decide)

/-- C2 amended: for a timestamp row value, the date-equal filter matches
iff the row's civil day in the resolved zone equals the filter's payload
date — day equality, with the time of day (sub-second included) ignored. -/
theorem claim2_equal_is_day_equality :
    ∀ (us : Int) (fv : String) (tz : Option String) (dv : String) (fday : Int),
      splitTimezoneAndFilterValue fv = (tz, dv) →
      parseDateYMD dv = some fday →
      (dateEqual (DateCell.instant us) fv = true ↔
        civilDayOfInstant us (resolveZone tz) = fday) := by
  intro us fv tz dv fday hsp hp
  simp [dateEqual, dateFilterEval, hsp, dateDayCompareParts, hp, rowCivilDay]

/-- Witness for C2 (amended): the last matching `dateEqualCases` row,
evaluated through the day-equality characterization. -/
theorem claim2_equal_is_day_equality_witness :
    dateEqual (DateCell.instant (mkInstant 2021 8 11 23 59 37 940086))
        "UTC?2021-08-11" = true ↔
      civilDayOfInstant (mkInstant 2021 8 11 23 59 37 940086)
        (resolveZone (some "UTC")) = 18850 :=
  claim2_equal_is_day_equality (mkInstant 2021 8 11 23 59 37 940086)
    "UTC?2021-08-11" (some "UTC") "2021-08-11" 18850 (by decide) (by decide)

lemma int_le_decide_decompose (a b : Int) :
    decide (a ≤ b) = (decide (a < b) || decide (a = b)) := by
  by_cases h : a < b
  · simp [h, le_of_lt h]
  · by_cases h2 : a = b
    · simp [h2]
    · have h3 : ¬ a ≤ b := by omega
      simp [h, h2, h3]

lemma dateDayCompareParts_le_decompose (row : DateCell) (tz : Option String)
    (dv : String) :
    dateDayCompareParts (fun a b => decide (a ≤ b)) row tz dv
      = (dateDayCompareParts (fun a b => decide (a < b)) row tz dv ||
         dateDayCompareParts (fun a b => decide (a = b)) row tz dv) := by
  cases row with
  | null => rfl
  | date d =>
    simp only [dateDayCompareParts]
    cases hp : parseDateYMD dv with
    | none => rfl
    | some fday => exact int_le_decide_decompose _ _
  | instant us =>
    simp only [dateDayCompareParts]
    cases hp : parseDateYMD dv with
    | none => rfl
    | some fday => exact int_le_decide_decompose _ _

/-- C3: for every row value and filter value, the date before-or-equal
filter agrees with the disjunction of the before filter and the equal
filter. -/
theorem claim3_before_or_equal_decomposition :
    ∀ (row : DateCell) (fv : String),
      dateBeforeOrEqual row fv = (dateBefore row fv || dateEqual row fv) := by
  intro row fv
  rcases hsp : splitTimezoneAndFilterValue fv with ⟨tz, dv⟩
  simp only [dateBeforeOrEqual, dateBefore, dateEqual, dateFilterEval, hsp]
  exact dateDayCompareParts_le_decompose row tz dv

/-- C4 counterexample: with an empty payload the within-next-N-days filter
matches a yesterday row, whereas defaulting the missing count to `0` (the
claim's reading) computes no match — the code fails open on an empty
payload instead of defaulting it to zero. -/
theorem claim4_empty_payload_cx :
    dateWithinDays now0 (DateCell.instant (now0 - usecPerDay)) "?" = true ∧
    dateWithinDaysDefaultZero now0 (DateCell.instant (now0 - usecPerDay)) "?" = false := by
  decide

/-- C4 amended: an unknown or malformed timezone name falls back to UTC,
an empty (or any non-numeric) payload where a count is expected makes the
within-days and within-weeks filters match every row rather than
defaulting to 0, and the claim's concrete examples hold. -/
theorem claim4_malformed_fallbacks :
    (∀ (now : Int) (row : DateCell) (tzName raw : String),
        zoneOffsetMinutes tzName = none →
        dateWithinDaysParts now row (some tzName) raw
          = dateWithinDaysParts now row (some "UTC") raw) ∧
    (∀ (now : Int) (row : DateCell) (tzName raw : String),
        zoneOffsetMinutes tzName = none →
        dateWithinWeeksParts now row (some tzName) raw
          = dateWithinWeeksParts now row (some "UTC") raw) ∧
    (∀ (now : Int) (row : DateCell) (tz : Option String) (raw : String),
        parseIntJS raw = none → dateWithinDaysParts now row tz raw = true) ∧
    (∀ (now : Int) (row : DateCell) (tz : Option String) (raw : String),
        parseIntJS raw = none → dateWithinWeeksParts now row tz raw = true) ∧
    (dateWithinDays now0 (DateCell.instant now0) "Mars/Noland?1" = true) ∧
    (dateWithinDays now0 (DateCell.instant now0) "?" = true) ∧
    (dateWithinDays now0 (DateCell.instant now0) "" = true) := by
  have hz : ∀ tzName : String, zoneOffsetMinutes tzName = none →
      resolveZone (some tzName) = resolveZone (some "UTC") := by
    intro tzName h
    show (zoneOffsetMinutes tzName).getD 0 = (zoneOffsetMinutes "UTC").getD 0
    rw [h]
    decide
  refine ⟨?_, ?_, ?_, ?_, by decide, by decide, by decide⟩
  · intro now row tzName raw h
    simp only [dateWithinDaysParts, hz tzName h]
  · intro now row tzName raw h
    simp only [dateWithinWeeksParts, hz tzName h]
  · intro now row tz raw h
    simp [dateWithinDaysParts, h]
  · intro now row tz raw h
    simp [dateWithinWeeksParts, h]

/-- Witness for C4 (amended): the unknown zone `Mars/Noland` evaluates the
within-days filter exactly as UTC does on a concrete row. -/
theorem claim4_malformed_fallbacks_witness :
    dateWithinDaysParts now0 (DateCell.instant now0) (some "Mars/Noland") "1"
      = dateWithinDaysParts now0 (DateCell.instant now0) (some "UTC") "1" :=
  claim4_malformed_fallbacks.1 now0 (DateCell.instant now0) "Mars/Noland" "1"
    (by decide)

/-- C5 counterexample: with an empty payload the N-days-ago filter matches
a yesterday row, whereas defaulting the missing count to `0` (the claim's
reading, an exact-match against today) computes no match. -/
theorem claim5_empty_payload_cx :
    dateEqualsDaysAgo now0 (DateCell.instant (now0 - usecPerDay)) "" = true ∧
    dateEqualsDaysAgoDefaultZero now0 (DateCell.instant (now0 - usecPerDay)) "" = false := by
  decide

/-- C5 amended: for a numeric offset N the days/months/years-ago filters
are exact-match filters — a non-null row matches iff its civil day in the
resolved zone equals exactly now minus N units; a row equal to now does not
match offset 1; an empty (or any non-numeric) payload makes the filter
match every row rather than defaulting to 0. -/
theorem claim5_ago_exact_match :
    (∀ (now : Int) (row : DateCell) (tz : Option String) (raw : String) (n : Int),
        parseIntJS raw = some n → row ≠ DateCell.null →
        (dateEqualsDaysAgoParts now row tz raw = true ↔
          rowCivilDay row (resolveZone tz)
            = civilDayOfInstant now (resolveZone tz) - n)) ∧
    (∀ (now : Int) (row : DateCell) (tz : Option String) (raw : String) (n : Int),
        parseIntJS raw = some n → row ≠ DateCell.null →
        (dateEqualsMonthsAgoParts now row tz raw = true ↔
          rowCivilDay row (resolveZone tz)
            = subMonthsDay (civilDayOfInstant now (resolveZone tz)) n)) ∧
    (∀ (now : Int) (row : DateCell) (tz : Option String) (raw : String) (n : Int),
        parseIntJS raw = some n → row ≠ DateCell.null →
        (dateEqualsYearsAgoParts now row tz raw = true ↔
          rowCivilDay row (resolveZone tz)
            = subYearsDay (civilDayOfInstant now (resolveZone tz)) n)) ∧
    (dateEqualsDaysAgo now0 (DateCell.instant now0) "?1" = false) ∧
    (dateEqualsDaysAgo now0 (DateCell.instant now0) "?" = true) ∧
    (∀ (now : Int) (row : DateCell) (tz : Option String) (raw : String),
        parseIntJS raw = none → dateEqualsDaysAgoParts now row tz raw = true) := by
  refine ⟨?_, ?_, ?_, by decide, by decide, ?_⟩
  · intro now row tz raw n hp hrow
    cases row with
    | null => exact absurd rfl hrow
    | date d => simp [dateEqualsDaysAgoParts, hp]
    | instant us => simp [dateEqualsDaysAgoParts, hp]
  · intro now row tz raw n hp hrow
    cases row with
    | null => exact absurd rfl hrow
    | date d => simp [dateEqualsMonthsAgoParts, hp]
    | instant us => simp [dateEqualsMonthsAgoParts, hp]
  · intro now row tz raw n hp hrow
    cases row with
    | null => exact absurd rfl hrow
    | date d => simp [dateEqualsYearsAgoParts, hp]
    | instant us => simp [dateEqualsYearsAgoParts, hp]
  · intro now row tz raw hp
    simp [dateEqualsDaysAgoParts, hp]

/-- Witness for C5 (amended): one day ago with offset 1 at a concrete row. -/
theorem claim5_ago_exact_match_witness :
    dateEqualsDaysAgoParts now0 (DateCell.instant (now0 - usecPerDay)) none "1" = true ↔
      rowCivilDay (DateCell.instant (now0 - usecPerDay)) (resolveZone none)
        = civilDayOfInstant now0 (resolveZone none) - 1 :=
  claim5_ago_exact_match.1 now0 (DateCell.instant (now0 - usecPerDay)) none "1" 1
    (by decide) (by decide)

/-- C6: the date-days-after-relative filter matches iff the row's civil day
lies in the inclusive range from today minus N days to today in the
resolved zone, for a positive parsed count N; a count of N ≤ 0, a
non-numeric payload and a null row value each yield false. -/
theorem claim6_after_days_ago :
    (∀ (now : Int) (fv : String), dateAfterDaysAgo now DateCell.null fv = false) ∧
    (∀ (now : Int) (row : DateCell) (tz : Option String) (raw : String),
        parseIntJS raw = none → dateAfterDaysAgoParts now row tz raw = false) ∧
    (∀ (now : Int) (row : DateCell) (tz : Option String) (raw : String) (n : Int),
        parseIntJS raw = some n → n ≤ 0 → dateAfterDaysAgoParts now row tz raw = false) ∧
    (∀ (now : Int) (row : DateCell) (tz : Option String) (raw : String) (n : Int),
        parseIntJS raw = some n → 0 < n → row ≠ DateCell.null →
        (dateAfterDaysAgoParts now row tz raw = true ↔
          (civilDayOfInstant now (resolveZone tz) - n ≤ rowCivilDay row (resolveZone tz) ∧
           rowCivilDay row (resolveZone tz) ≤ civilDayOfInstant now (resolveZone tz)))) ∧
    (dateAfterDaysAgo now0 (DateCell.instant now0) "UTC?abc" = false) ∧
    (dateAfterDaysAgo now0 (DateCell.instant now0) "UTC? " = false) ∧
    (dateAfterDaysAgo now0 (DateCell.instant now0) "?" = false) := by
  refine ⟨?_, ?_, ?_, ?_, by decide, by decide, by decide⟩
  · intro now fv
    rcases hsp : splitTimezoneAndFilterValue fv with ⟨tz, raw⟩
    simp [dateAfterDaysAgo, hsp, dateAfterDaysAgoParts]
  · intro now row tz raw hp
    cases row <;> simp [dateAfterDaysAgoParts, hp]
  · intro now row tz raw n hp hn
    cases row <;> simp [dateAfterDaysAgoParts, hp, hn]
  · intro now row tz raw n hp hn hrow
    have hn2 : ¬ n ≤ 0 := by omega
    cases row with
    | null => exact absurd rfl hrow
    | date d => simp [dateAfterDaysAgoParts, hp, hn2]
    | instant us => simp [dateAfterDaysAgoParts, hp, hn2]

/-- Witness for C6: a row ten days back against a count of ten, inside the
inclusive window. -/
theorem claim6_after_days_ago_witness :
    dateAfterDaysAgoParts now0 (DateCell.instant (now0 - 10 * usecPerDay)) none "10" = true ↔
      (civilDayOfInstant now0 (resolveZone none) - 10
          ≤ rowCivilDay (DateCell.instant (now0 - 10 * usecPerDay)) (resolveZone none) ∧
        rowCivilDay (DateCell.instant (now0 - 10 * usecPerDay)) (resolveZone none)
          ≤ civilDayOfInstant now0 (resolveZone none)) :=
  claim6_after_days_ago.2.2.2.1 now0 (DateCell.instant (now0 - 10 * usecPerDay))
    none "10" 10 (by decide) (by decide) (by decide)

/-- C7: a multi-select filter value whose type does not match the id type
makes both the has and has-not filters fail open (both true); a filter
value carrying an id n makes has true iff some option record has id n, and
has-not its logical negation. -/
theorem claim7_multiple_select :
    (∀ (row : List SelectOption) (fv : JsVal),
        parseFilterId fv = none →
        multipleSelectHas row fv = true ∧ multipleSelectHasNot row fv = true) ∧
    (∀ (row : List SelectOption) (fv : JsVal) (n : Int),
        parseFilterId fv = some n →
        ((multipleSelectHas row fv = true ↔ ∃ o ∈ row, o.id = n) ∧
          multipleSelectHasNot row fv = !(multipleSelectHas row fv))) ∧
    (multipleSelectHas selectRow (JsVal.str "wrong_type") = true) ∧
    (multipleSelectHasNot selectRow (JsVal.str "wrong_type") = true) := by
  refine ⟨?_, ?_, by decide, by decide⟩
  · intro row fv hp
    constructor <;> simp [multipleSelectHas, multipleSelectHasNot, hp]
  · intro row fv n hp
    constructor
    · simp [multipleSelectHas, hp, List.any_eq_true]
    · simp [multipleSelectHas, multipleSelectHasNot, hp]

/-- Witness for C7: filter id 154 against the two-option row of the test
table. -/
theorem claim7_multiple_select_witness :
    (multipleSelectHas selectRow (JsVal.num 154) = true ↔
        ∃ o ∈ selectRow, o.id = 154) ∧
      multipleSelectHasNot selectRow (JsVal.num 154)
        = !(multipleSelectHas selectRow (JsVal.num 154)) :=
  claim7_multiple_select.2.1 selectRow (JsVal.num 154) 154 (by decide)

/-- C8 counterexample: with an empty filter substring the link-row
not-contains filter matches a non-empty row (the source table expects
`true`), so it is not the logical negation of the contains filter there —
the claim's "never matches" fails. -/
theorem claim8_empty_not_contains_cx :
    linkRowContains [LinkedRow.mk "bill"] "" = true ∧
    linkRowNotContains [LinkedRow.mk "bill"] "" = true ∧
    linkRowNotContains [LinkedRow.mk "bill"] ""
      ≠ !(linkRowContains [LinkedRow.mk "bill"] "") := by
  decide

/-- C8 amended: a row matches the contains filter iff some record's display
value contains the filter substring case-insensitively, and an empty filter
substring always matches; the not-contains filter is the logical negation
of contains for every non-empty filter substring, but an empty substring
makes it match everything as well (both filters fail open there). -/
theorem claim8_link_row_contains :
    (∀ row : List LinkedRow, linkRowContains row "" = true) ∧
    (∀ row : List LinkedRow, linkRowNotContains row "" = true) ∧
    (∀ (row : List LinkedRow) (fv : String), fv ≠ "" →
        ((linkRowContains row fv = true ↔ ∃ r ∈ row, containsCI r.value fv = true) ∧
          linkRowNotContains row fv = !(linkRowContains row fv))) := by
  refine ⟨?_, ?_, ?_⟩
  · intro row
    simp [linkRowContains]
  · intro row
    simp [linkRowNotContains]
  · intro row fv h
    constructor
    · simp [linkRowContains, h, List.any_eq_true]
    · simp [linkRowNotContains, h]

/-- Witness for C8 (amended): the substring `bi` against the one-record row
`bill` of the test table. -/
theorem claim8_link_row_contains_witness :
    (linkRowContains [LinkedRow.mk "bill"] "bi" = true ↔
        ∃ r ∈ [LinkedRow.mk "bill"], containsCI r.value "bi" = true) ∧
      linkRowNotContains [LinkedRow.mk "bill"] "bi"
        = !(linkRowContains [LinkedRow.mk "bill"] "bi") :=
  claim8_link_row_contains.2.2 [LinkedRow.mk "bill"] "bi" (by decide)

/-- C9 counterexample: the length-lower-than filter matches the row `bill`
against the numeric filter value 0 (the source table expects `true`), even
though the length 4 is not strictly less than 0 — the claimed strict-length
characterization fails at 0. -/
theorem claim9_zero_limit_cx :
    lengthIsLowerThan "bill" (JsVal.num 0) = true ∧
    ¬ (("bill".length : Int) < 0) := by
  decide

/-- C9 amended: a non-numeric filter value always matches, a numeric filter
value of 0 also always matches (treated as no limit set), and any other
numeric filter value matches iff the row's string length is strictly below
it. -/
theorem claim9_length_lower_than :
    (∀ (row : String) (fv : JsVal),
        jsToNumber fv = none → lengthIsLowerThan row fv = true) ∧
    (∀ row : String, lengthIsLowerThan row (JsVal.num 0) = true) ∧
    (∀ (row : String) (n : Int), n ≠ 0 →
        lengthIsLowerThan row (JsVal.num n)
          = decide ((row.length : Int) < n)) := by
  refine ⟨?_, ?_, ?_⟩
  · intro row fv hp
    simp [lengthIsLowerThan, hp]
  · intro row
    simp [lengthIsLowerThan, jsToNumber]
  · intro row n h
    simp [lengthIsLowerThan, jsToNumber, h]

/-- Witness for C9 (amended): the filter value 5 against the row `bill`. -/
theorem claim9_length_lower_than_witness :
    lengthIsLowerThan "bill" (JsVal.num 5)
      = decide ((("bill").length : Int) < 5) :=
  claim9_length_lower_than.2.2 "bill" 5 (by decide)

/-- C10: the has-file-type filter with an empty filter value matches every
file list including the empty one; a non-empty filter value never matches
the empty list; and with filter value image or document the row matches
iff some record's image flag agrees with the requested category. -/
theorem claim10_has_file_type :
    (∀ row : List FileRecord, hasFileType row "" = true) ∧
    (hasFileType [] "image" = false) ∧
    (hasFileType [] "document" = false) ∧
    (∀ row : List FileRecord,
        hasFileType row "image" = row.any (fun r => r.is_image)) ∧
    (∀ row : List FileRecord,
        hasFileType row "document" = row.any (fun r => !r.is_image)) := by
  refine ⟨?_, by decide, by decide, ?_, ?_⟩
  · intro row
    simp [hasFileType]
  · intro row
    simp [hasFileType]
  · intro row
    simp [hasFileType]
